import Mathlib

/-!
Anima: fibre filtering and the tensor resampling driver

A shallow embedding of two command-line tools of the Anima repository:

* `animaFibersFilterer.cxx` (`filterTracks`): the deletion loop over the cells
  of a `vtkPolyData`, written loop by loop with the loop variables as explicit
  state;
* `animaTensorApplyTransformSerie.cxx` (`main`): the driver that reads a tensor
  image, a geometry reference and a transform series, and chains the Log,
  resample and Exp filters into the image writer.

Library objects (TCLAP, ITK readers and filters, VTK cleaning) are not part of
the sources; they enter as parameters whose calls the embedding makes at the
places the source makes them.  Labels are `unsigned int` values read as
natural numbers, and the numbers of cells and of points are taken to fit the
`unsigned int` loop counters.
-/

namespace FibersFilterer

/-- The calls `filterTracks` makes on the nearest neighbour interpolator and on
its input label image.  `P` is a physical point and `C` a continuous index; the
label is the `unsigned short` voxel value as read into `unsigned int value`. -/
structure Interpolator (P C : Type) where
  transformPhysicalPointToContinuousIndex : P → C
  isInsideBuffer : C → Bool
  evaluateAtContinuousIndex : C → Nat

/-- Lines 48-55: scan of `forbiddenLabels`; a match clears `lineOk` and breaks. -/
def forbiddenLoop (value : Nat) : List Nat → Bool → Bool
  | [], lineOk => lineOk
  | l :: ls, lineOk => if value = l then false else forbiddenLoop value ls lineOk

/-- Lines 64-72: scan of `seenLabels` computing `alreadyIn`. -/
def alreadyInLoop (value : Nat) : List Nat → Bool
  | [] => false
  | s :: ss => if s = value then true else alreadyInLoop value ss

/-- Lines 60-79: scan of `touchLabels`; on the first match the value is pushed
to `seenLabels` unless already there, and the scan breaks. -/
def touchLoop (value : Nat) : List Nat → List Nat → List Nat
  | [], seenLabels => seenLabels
  | t :: ts, seenLabels =>
    if value = t then
      (if alreadyInLoop value seenLabels then seenLabels else seenLabels ++ [value])
    else touchLoop value ts seenLabels

/-- Lines 35-80: the loop over the points of one cell, on the state
`(seenLabels, lineOk)`. -/
def pointLoop {P C : Type} (interpolator : Interpolator P C)
    (touchLabels forbiddenLabels : List Nat) : List P → List Nat × Bool → List Nat × Bool
  | [], st => st
  | p :: ps, (seenLabels, lineOk) =>
    let currentIndex := interpolator.transformPhysicalPointToContinuousIndex p
    if !interpolator.isInsideBuffer currentIndex then
      pointLoop interpolator touchLabels forbiddenLabels ps (seenLabels, lineOk)
    else
      let value := interpolator.evaluateAtContinuousIndex currentIndex
      let lineOk1 := forbiddenLoop value forbiddenLabels lineOk
      if !lineOk1 then (seenLabels, lineOk1)
      else
        pointLoop interpolator touchLabels forbiddenLabels ps
          (touchLoop value touchLabels seenLabels, lineOk1)

/-- Lines 26-84: the loop over the cells.  `seenLabels` is declared before the
loop (line 20) and cleared at the top of every iteration, `lineOk` is declared
in the body.  The result pairs every cell with its deletion mark
(`tracks->DeleteCell(i)`). -/
def cellLoop {P C : Type} (interpolator : Interpolator P C)
    (touchLabels forbiddenLabels : List Nat) : List (List P) → List Nat → List (List P × Bool)
  | [], _ => []
  | cell :: cells, _seenLabels =>
    let st := pointLoop interpolator touchLabels forbiddenLabels cell ([], true)
    (cell, !st.2 || st.1.length != touchLabels.length)
      :: cellLoop interpolator touchLabels forbiddenLabels cells st.1

/-- Line 86, `tracks->RemoveDeletedCells()`: the unmarked cells, in order. -/
def removeDeletedCells {P : Type} (marked : List (List P × Bool)) : List (List P) :=
  (marked.filter (fun c => !c.2)).map Prod.fst

/-- Lines 18-86: the deletion loop followed by `RemoveDeletedCells`. -/
def deletionLoop {P C : Type} (interpolator : Interpolator P C)
    (touchLabels forbiddenLabels : List Nat) (tracks : List (List P)) : List (List P) :=
  removeDeletedCells (cellLoop interpolator touchLabels forbiddenLabels tracks [])

/-- The whole of `filterTracks` (lines 15-95) on the cells of `tracks`.
`vtkCleaner` is the `vtkCleanPolyData` pass of lines 89-92, a library filter
taken as a parameter. -/
def filterTracks {P C : Type} (vtkCleaner : List (List P) → List (List P))
    (tracks : List (List P)) (interpolator : Interpolator P C)
    (touchLabels forbiddenLabels : List Nat) : List (List P) :=
  vtkCleaner (deletionLoop interpolator touchLabels forbiddenLabels tracks)

/-- The per-cell test of line 82, on one cell alone: the cell is kept. -/
def cellKept {P C : Type} (interpolator : Interpolator P C)
    (touchLabels forbiddenLabels : List Nat) (cell : List P) : Bool :=
  let st := pointLoop interpolator touchLabels forbiddenLabels cell ([], true)
  !(!st.2 || st.1.length != touchLabels.length)

/-- A fibre has a point inside the buffer of the label image carrying `label`. -/
def Touches {P C : Type} (interpolator : Interpolator P C) (fiber : List P) (label : Nat) : Prop :=
  ∃ p ∈ fiber,
    interpolator.isInsideBuffer (interpolator.transformPhysicalPointToContinuousIndex p) = true ∧
    interpolator.evaluateAtContinuousIndex
      (interpolator.transformPhysicalPointToContinuousIndex p) = label

/-- A valid fibre: no in-buffer point with a forbidden label, and every touch
label met at some in-buffer point. -/
def ValidFiber {P C : Type} (interpolator : Interpolator P C)
    (touchLabels forbiddenLabels : List Nat) (fiber : List P) : Prop :=
  (∀ l ∈ forbiddenLabels, ¬ Touches interpolator fiber l) ∧
  (∀ l ∈ touchLabels, Touches interpolator fiber l)

instance {P C : Type} (interpolator : Interpolator P C) (fiber : List P) (label : Nat) :
    Decidable (Touches interpolator fiber label) := by
  unfold Touches
  infer_instance

instance {P C : Type} (interpolator : Interpolator P C)
    (touchLabels forbiddenLabels : List Nat) (fiber : List P) :
    Decidable (ValidFiber interpolator touchLabels forbiddenLabels fiber) := by
  unfold ValidFiber
  infer_instance

/-- The cleaning pass only hands back cells of its input, point for point. -/
def CleanerKeepsPoints {P : Type} (vtkCleaner : List (List P) → List (List P)) : Prop :=
  ∀ cells f, f ∈ vtkCleaner cells → ∃ g ∈ cells, ∀ p, p ∈ f ↔ p ∈ g

/-- A label image on integer points used in the examples: the buffer is
`0 ≤ x < 10` and the voxel at `x` carries the label `x % 4`. -/
def sampleInterpolator : Interpolator Nat Nat where
  transformPhysicalPointToContinuousIndex := fun p => p
  isInsideBuffer := fun c => decide (c < 10)
  evaluateAtContinuousIndex := fun c => c % 4

end FibersFilterer

namespace TensorApplyTransformSerie

/-- The value of `EXIT_SUCCESS` in the C library, returned on line 183. -/
def EXIT_SUCCESS : Nat := 0

/-- The value of `EXIT_FAILURE` in the C library, returned on lines 51, 74 and 94. -/
def EXIT_FAILURE : Nat := 1

/-- Line 54, `const unsigned int Dimension = 3`. -/
def Dimension : Nat := 3

/-- A thrown C++ exception, by the class a `catch` clause tests:
`TCLAP::ArgException` (with `e.error()` and `e.argId()`), `itk::ExceptionObject`
(with the text `operator<<` prints), or any other class. -/
inductive Exception
  | argException (error argId : String)
  | exceptionObject (what : String)
  | other (what : String)
  deriving DecidableEq, Repr

/-- The TCLAP arguments of lines 32-42 after a successful `cmd.parse`.  The
four required arguments hold their value; a switch holds `isSet()`; an optional
value holds what was given on the command line, if anything. -/
structure CmdLine where
  inArg : String
  trArg : String
  outArg : String
  geomArg : String
  ppdArg : Bool
  expOrderArg : Option Nat
  invertArg : Bool
  nearestArg : Bool
  nbpArg : Option Nat
  deriving DecidableEq, Repr

/-- Line 38: `expOrderArg.getValue()`, whose default is the `0` of the declaration. -/
def CmdLine.expOrderValue (cmd : CmdLine) : Nat := cmd.expOrderArg.getD 0

/-- Line 42: `nbpArg.getValue()`, whose default is
`itk::MultiThreaderBase::GetGlobalDefaultNumberOfThreads()`. -/
def CmdLine.nbpValue (cmd : CmdLine) (globalDefaultNumberOfThreads : Nat) : Nat :=
  cmd.nbpArg.getD globalDefaultNumberOfThreads

/-- What the image IO object reports once `ReadImageInformation` has run:
`GetOrigin(i)`, `GetSpacing(i)`, `GetDimensions(i)` and `GetDirection(j)[i]`
(given as `getDirection j i`). -/
structure ImageInformation (S : Type) where
  getOrigin : Nat → S
  getSpacing : Nat → S
  getDimensions : Nat → Nat
  getDirection : Nat → Nat → S

/-- The object returned by `itk::ImageIOFactory::CreateImageIO`: line 79 calls
`ReadImageInformation` on it after the file name is set on line 78. -/
structure ImageIOBase (S : Type) where
  readImageInformation : String → Except Exception (ImageInformation S)

/-- The locals of lines 115-118: direction matrix, origin, spacing and the
index and size of the largest region. -/
structure OutputGeometry (S : Type) where
  directionMatrix : Nat → Nat → S
  origin : Nat → S
  spacing : Nat → S
  regionIndex : Nat → Int
  regionSize : Nat → Nat

/-- Settings of the transform series reader, lines 82-85. -/
structure TransformSeriesReaderConfig where
  input : String
  invertTransform : Bool
  exponentiationOrder : Nat
  numberOfWorkUnits : Nat
  deriving DecidableEq, Repr

/-- Lines 101-104: the interpolator handed to the resampler. -/
inductive InterpolatorKind
  | nearestNeighbor
  | vectorModelLinear
  deriving DecidableEq, Repr

/-- Settings of the resample filter, lines 110-113 and 131-134. -/
structure ResampleConfig (Trsf S : Type) where
  transform : Trsf
  finiteStrainReorientation : Bool
  interpolator : InterpolatorKind
  numberOfWorkUnits : Nat
  output : OutputGeometry S

/-- Settings of the Log filter (lines 140-141) and of the Exp filter (lines 163-164). -/
structure TensorFilterConfig where
  scaleNonDiagonal : Bool
  numberOfWorkUnits : Nat
  deriving DecidableEq, Repr

/-- Settings of the image writer, lines 172 and 179. -/
structure WriterConfig where
  useCompression : Bool
  fileName : String
  deriving DecidableEq, Repr

/-- Everything `main` calls outside its own text.  An `Update` either gives
its output or throws. -/
structure Env (Img Trsf S : Type) where
  cmdParse : List String → Except Exception CmdLine
  globalDefaultNumberOfThreads : Nat
  readerUpdate : String → Except Exception Img
  createImageIo : String → Option (ImageIOBase S)
  trReaderUpdate : TransformSeriesReaderConfig → Except Exception Trsf
  tensorLoggerUpdate : TensorFilterConfig → Img → Except Exception Img
  resampleUpdate : ResampleConfig Trsf S → Img → Except Exception Img
  tensorExperUpdate : TensorFilterConfig → Img → Except Exception Img
  writerUpdate : WriterConfig → Img → Except Exception Unit
  uninitialised : OutputGeometry S

/-- A call of an `Update` (or of `ReadImageInformation`) made by `main`, with
the settings and the input image of the called object at that moment. -/
inductive Event (Img Trsf S : Type)
  | readerUpdate (fileName : String)
  | readImageInformation (fileName : String)
  | trReaderUpdate (cfg : TransformSeriesReaderConfig)
  | tensorLoggerUpdate (cfg : TensorFilterConfig) (input : Img)
  | resampleUpdate (cfg : ResampleConfig Trsf S) (input : Img)
  | tensorExperUpdate (cfg : TensorFilterConfig) (input : Img)
  | writerUpdate (cfg : WriterConfig) (input : Img)

/-- How `main` ends: a `return` with its code, or an exception leaving `main`. -/
inductive Outcome
  | returned (code : Nat)
  | uncaught (e : Exception)
  deriving DecidableEq, Repr

/-- One run of `main`: how it ended, what it wrote on `std::cerr` and on
`std::cout`, the calls it made, in order, and the settings of the resample
filter when `main` ended, if the filter was created (line 108) by then. -/
structure Run (Img Trsf S : Type) where
  outcome : Outcome
  cerr : List String
  cout : List String
  events : List (Event Img Trsf S)
  resampler : Option (ResampleConfig Trsf S)

/-- Lines 127-128: the inner loop over `j`, writing row `i` of the direction matrix. -/
def directionLoop {S : Type} (info : ImageInformation S) (i : Nat) :
    List Nat → (Nat → Nat → S) → (Nat → Nat → S)
  | [], m => m
  | j :: js, m =>
    directionLoop info i js (fun a b => if a = i ∧ b = j then info.getDirection j i else m a b)

/-- Lines 120-129: the loop over `i`. -/
def geometryLoop {S : Type} (info : ImageInformation S) :
    List Nat → OutputGeometry S → OutputGeometry S
  | [], g => g
  | i :: is, g =>
    geometryLoop info is
      { origin := fun a => if a = i then info.getOrigin i else g.origin a
        spacing := fun a => if a = i then info.getSpacing i else g.spacing a
        regionIndex := fun a => if a = i then 0 else g.regionIndex a
        regionSize := fun a => if a = i then info.getDimensions i else g.regionSize a
        directionMatrix := directionLoop info i (List.range Dimension) g.directionMatrix }

/-- Lines 115-129: the locals start with whatever their declaration leaves in
them and are filled by the loop. -/
def outputGeometry {S : Type} (info : ImageInformation S) (uninitialised : OutputGeometry S) :
    OutputGeometry S :=
  geometryLoop info (List.range Dimension) uninitialised

/-- The function `main` of `animaTensorApplyTransformSerie.cxx`, lines 14-184.
`av` is the command line; every exit gives the outcome, the lines written on
`std::cerr`, the pieces written on `std::cout`, the calls made so far, and the
settings of the resample filter once lines 108-134 have run. -/
def main {Img Trsf S : Type} (env : Env Img Trsf S) (av : List String) : Run Img Trsf S :=
  -- lines 44-52
  match env.cmdParse av with
  | .error (.argException error argId) =>
    ⟨.returned EXIT_FAILURE, ["Error: " ++ error ++ "for argument " ++ argId], [], [], none⟩
  | .error e => ⟨.uncaught e, [], [], [], none⟩
  | .ok cmd =>
  -- lines 64-66
  let ev1 : List (Event Img Trsf S) := [Event.readerUpdate cmd.inArg]
  match env.readerUpdate cmd.inArg with
  | .error e => ⟨.uncaught e, [], [], ev1, none⟩
  | .ok readerOutput =>
  -- lines 68-75
  match env.createImageIo cmd.geomArg with
  | none =>
    ⟨.returned EXIT_FAILURE, ["Itk could not find suitable IO factory for the input"], [], ev1, none⟩
  | some imageIo =>
  -- lines 78-79
  let ev2 := ev1 ++ [Event.readImageInformation cmd.geomArg]
  match imageIo.readImageInformation cmd.geomArg with
  | .error e => ⟨.uncaught e, [], [], ev2, none⟩
  | .ok info =>
  -- lines 81-95
  let nbp := cmd.nbpValue env.globalDefaultNumberOfThreads
  let trCfg : TransformSeriesReaderConfig :=
    { input := cmd.trArg
      invertTransform := cmd.invertArg
      exponentiationOrder := cmd.expOrderValue
      numberOfWorkUnits := nbp }
  let ev3 := ev2 ++ [Event.trReaderUpdate trCfg]
  match env.trReaderUpdate trCfg with
  | .error (.exceptionObject what) => ⟨.returned EXIT_FAILURE, [what], [], ev3, none⟩
  | .error e => ⟨.uncaught e, [], [], ev3, none⟩
  | .ok trsf =>
  -- lines 99-134
  let interpolator :=
    if cmd.nearestArg then InterpolatorKind.nearestNeighbor
    else InterpolatorKind.vectorModelLinear
  let resampleCfg : ResampleConfig Trsf S :=
    { transform := trsf
      finiteStrainReorientation := !cmd.ppdArg
      interpolator := interpolator
      numberOfWorkUnits := nbp
      output := outputGeometry info env.uninitialised }
  -- lines 136-145
  let logCfg : TensorFilterConfig := { scaleNonDiagonal := true, numberOfWorkUnits := nbp }
  let ev4 := ev3 ++ [Event.tensorLoggerUpdate logCfg readerOutput]
  match env.tensorLoggerUpdate logCfg readerOutput with
  | .error e => ⟨.uncaught e, [], ["Logging input... "], ev4, some resampleCfg⟩
  | .ok logOutput =>
  -- lines 147-154
  let ev5 := ev4 ++ [Event.resampleUpdate resampleCfg logOutput]
  match env.resampleUpdate resampleCfg logOutput with
  | .error e =>
    ⟨.uncaught e, [], ["Logging input... ", "Done...", "Applying transform... "], ev5, some resampleCfg⟩
  | .ok resampleOutput =>
  -- lines 156-168
  let expCfg : TensorFilterConfig := { scaleNonDiagonal := true, numberOfWorkUnits := nbp }
  let ev6 := ev5 ++ [Event.tensorExperUpdate expCfg resampleOutput]
  match env.tensorExperUpdate expCfg resampleOutput with
  | .error e =>
    ⟨.uncaught e, [],
      ["Logging input... ", "Done...", "Applying transform... ", "Done...",
        "Exping output... "], ev6, some resampleCfg⟩
  | .ok expOutput =>
  -- lines 170-183
  let writerCfg : WriterConfig := { useCompression := true, fileName := cmd.outArg }
  let ev7 := ev6 ++ [Event.writerUpdate writerCfg expOutput]
  let cout := ["Logging input... ", "Done...", "Applying transform... ", "Done...",
    "Exping output... ", "Done..."]
  match env.writerUpdate writerCfg expOutput with
  | .error e => ⟨.uncaught e, [], cout, ev7, some resampleCfg⟩
  | .ok _ => ⟨.returned EXIT_SUCCESS, [], cout, ev7, some resampleCfg⟩

/-- A command line of the examples: the required arguments and nothing else. -/
def sampleCmd : CmdLine :=
  { inArg := "dti.nrrd", trArg := "trsf.xml", outArg := "out.nrrd", geomArg := "ref.nrrd"
    ppdArg := false, expOrderArg := none, invertArg := false, nearestArg := false
    nbpArg := none }

/-- A geometry reference of the examples. -/
def sampleInformation : ImageInformation Int where
  getOrigin := fun i => 10 + i
  getSpacing := fun i => 2 + i
  getDimensions := fun i => 64 + i
  getDirection := fun j i => 10 * j + i

/-- Local variables of the examples before the loop fills them. -/
def sampleUninitialised : OutputGeometry Int where
  directionMatrix := fun _ _ => -1
  origin := fun _ => -1
  spacing := fun _ => -1
  regionIndex := fun _ => -1
  regionSize := fun _ => 99

/-- An environment of the examples, with images and transforms named by
numbers: the command line parses to `cmd`, the tensor image is readable when
`inputReadable`, the geometry reference has an IO factory when `geometryFound`,
the descriptor parses when `descriptorValid`; the Log filter adds 100, the
resampler 20 and the Exp filter 3. -/
def sampleEnv (cmd : CmdLine) (inputReadable geometryFound descriptorValid : Bool) :
    Env Nat Nat Int where
  cmdParse := fun _ => .ok cmd
  globalDefaultNumberOfThreads := 8
  readerUpdate := fun _ =>
    if inputReadable then .ok 1 else .error (.exceptionObject "could not read the input")
  createImageIo := fun _ =>
    if geometryFound then some ⟨fun _ => .ok sampleInformation⟩ else none
  trReaderUpdate := fun _ =>
    if descriptorValid then .ok 5 else .error (.exceptionObject "bad descriptor")
  tensorLoggerUpdate := fun _ img => .ok (img + 100)
  resampleUpdate := fun _ img => .ok (img + 20)
  tensorExperUpdate := fun _ img => .ok (img + 3)
  writerUpdate := fun _ _ => .ok ()
  uninitialised := sampleUninitialised

/-- A command line of the examples with `-e 5`. -/
def sampleCmdOrder5 : CmdLine := { sampleCmd with expOrderArg := some 5 }

/-- A command line of the examples with `-P`. -/
def sampleCmdPpd : CmdLine := { sampleCmd with ppdArg := true }

/-- The resampler settings the successful example run ends with. -/
def sampleResampleConfig : ResampleConfig Nat Int :=
  { transform := 5
    finiteStrainReorientation := true
    interpolator := InterpolatorKind.vectorModelLinear
    numberOfWorkUnits := 8
    output := outputGeometry sampleInformation sampleUninitialised }

end TensorApplyTransformSerie

namespace FibersFilterer

/-! ### The inner loops -/

theorem forbiddenLoop_eq (value : Nat) (forbiddenLabels : List Nat) (lineOk : Bool) :
    forbiddenLoop value forbiddenLabels lineOk = (lineOk && decide (value ∉ forbiddenLabels)) := by
  induction forbiddenLabels with
  | nil => simp [forbiddenLoop]
  | cons l ls ih =>
    by_cases h : value = l
    · simp [forbiddenLoop, h]
    · simp [forbiddenLoop, h, ih]

theorem alreadyInLoop_eq (value : Nat) (seenLabels : List Nat) :
    alreadyInLoop value seenLabels = decide (value ∈ seenLabels) := by
  induction seenLabels with
  | nil => simp [alreadyInLoop]
  | cons s ss ih =>
    by_cases h : s = value
    · simp [alreadyInLoop, h]
    · have h2 : ¬ value = s := fun e => h e.symm
      simp [alreadyInLoop, h, h2, ih]

theorem touchLoop_eq (value : Nat) (touchLabels seenLabels : List Nat) :
    touchLoop value touchLabels seenLabels =
      if value ∈ touchLabels then
        (if value ∈ seenLabels then seenLabels else seenLabels ++ [value])
      else seenLabels := by
  induction touchLabels with
  | nil => simp [touchLoop]
  | cons t ts ih =>
    by_cases h : value = t
    · simp [touchLoop, h, alreadyInLoop_eq]
    · simp [touchLoop, h, ih]

/-! ### The loop over the points of a cell -/

theorem pointLoop_nil {P C : Type} (interpolator : Interpolator P C)
    (touchLabels forbiddenLabels : List Nat) (st : List Nat × Bool) :
    pointLoop interpolator touchLabels forbiddenLabels [] st = st := by
  simp [pointLoop]

theorem pointLoop_cons_outside {P C : Type} (interpolator : Interpolator P C)
    (touchLabels forbiddenLabels : List Nat) (p : P) (ps : List P) (seenLabels : List Nat)
    (lineOk : Bool)
    (h : interpolator.isInsideBuffer
      (interpolator.transformPhysicalPointToContinuousIndex p) = false) :
    pointLoop interpolator touchLabels forbiddenLabels (p :: ps) (seenLabels, lineOk) =
      pointLoop interpolator touchLabels forbiddenLabels ps (seenLabels, lineOk) := by
  simp [pointLoop, h]

theorem pointLoop_cons_forbidden {P C : Type} (interpolator : Interpolator P C)
    (touchLabels forbiddenLabels : List Nat) (p : P) (ps : List P) (seenLabels : List Nat)
    (h : interpolator.isInsideBuffer
      (interpolator.transformPhysicalPointToContinuousIndex p) = true)
    (hf : interpolator.evaluateAtContinuousIndex
      (interpolator.transformPhysicalPointToContinuousIndex p) ∈ forbiddenLabels) :
    pointLoop interpolator touchLabels forbiddenLabels (p :: ps) (seenLabels, true) =
      (seenLabels, false) := by
  simp [pointLoop, h, forbiddenLoop_eq, hf]

theorem pointLoop_cons_inside {P C : Type} (interpolator : Interpolator P C)
    (touchLabels forbiddenLabels : List Nat) (p : P) (ps : List P) (seenLabels : List Nat)
    (h : interpolator.isInsideBuffer
      (interpolator.transformPhysicalPointToContinuousIndex p) = true)
    (hf : interpolator.evaluateAtContinuousIndex
      (interpolator.transformPhysicalPointToContinuousIndex p) ∉ forbiddenLabels) :
    pointLoop interpolator touchLabels forbiddenLabels (p :: ps) (seenLabels, true) =
      pointLoop interpolator touchLabels forbiddenLabels ps
        (touchLoop (interpolator.evaluateAtContinuousIndex
          (interpolator.transformPhysicalPointToContinuousIndex p)) touchLabels seenLabels,
          true) := by
  simp [pointLoop, h, forbiddenLoop_eq, hf]

theorem touches_nil {P C : Type} (interpolator : Interpolator P C) (l : Nat) :
    ¬ Touches interpolator ([] : List P) l := by
  simp [Touches]

theorem touches_cons {P C : Type} (interpolator : Interpolator P C) (p : P) (ps : List P)
    (l : Nat) :
    Touches interpolator (p :: ps) l ↔
      (interpolator.isInsideBuffer
          (interpolator.transformPhysicalPointToContinuousIndex p) = true ∧
        interpolator.evaluateAtContinuousIndex
          (interpolator.transformPhysicalPointToContinuousIndex p) = l) ∨
      Touches interpolator ps l := by
  simp [Touches]

/-- The final `lineOk` is true exactly when no forbidden label is met inside the buffer. -/
theorem pointLoop_lineOk {P C : Type} (interpolator : Interpolator P C)
    (touchLabels forbiddenLabels : List Nat) (ps : List P) (seenLabels : List Nat) :
    (pointLoop interpolator touchLabels forbiddenLabels ps (seenLabels, true)).2 = true ↔
      ∀ l ∈ forbiddenLabels, ¬ Touches interpolator ps l := by
  induction ps generalizing seenLabels with
  | nil => simp [pointLoop_nil, touches_nil]
  | cons p ps ih =>
    cases hin : interpolator.isInsideBuffer
        (interpolator.transformPhysicalPointToContinuousIndex p) with
    | false =>
      rw [pointLoop_cons_outside _ _ _ _ _ _ _ hin, ih]
      simp [touches_cons, hin]
    | true =>
      by_cases hf : interpolator.evaluateAtContinuousIndex
          (interpolator.transformPhysicalPointToContinuousIndex p) ∈ forbiddenLabels
      · rw [pointLoop_cons_forbidden _ _ _ _ _ _ hin hf]
        simp only [Bool.false_eq_true, false_iff, not_forall]
        exact ⟨_, hf, by simp [touches_cons, hin]⟩
      · rw [pointLoop_cons_inside _ _ _ _ _ _ hin hf, ih]
        constructor
        · intro h l hl ht
          rcases (touches_cons _ _ _ _).1 ht with ⟨_, he⟩ | ht2
          · exact hf (he ▸ hl)
          · exact h l hl ht2
        · intro h l hl ht
          exact h l hl ((touches_cons _ _ _ _).2 (Or.inr ht))

/-- When the scan ends with `lineOk`, `seenLabels` holds what it held before
plus the touch labels met inside the buffer. -/
theorem pointLoop_seen {P C : Type} (interpolator : Interpolator P C)
    (touchLabels forbiddenLabels : List Nat) (ps : List P) (seenLabels : List Nat)
    (hok : (pointLoop interpolator touchLabels forbiddenLabels ps (seenLabels, true)).2 = true)
    (v : Nat) :
    v ∈ (pointLoop interpolator touchLabels forbiddenLabels ps (seenLabels, true)).1 ↔
      v ∈ seenLabels ∨ (v ∈ touchLabels ∧ Touches interpolator ps v) := by
  induction ps generalizing seenLabels with
  | nil => simp [pointLoop_nil, touches_nil]
  | cons p ps ih =>
    cases hin : interpolator.isInsideBuffer
        (interpolator.transformPhysicalPointToContinuousIndex p) with
    | false =>
      rw [pointLoop_cons_outside _ _ _ _ _ _ _ hin] at hok ⊢
      rw [ih _ hok]
      simp [touches_cons, hin]
    | true =>
      by_cases hf : interpolator.evaluateAtContinuousIndex
          (interpolator.transformPhysicalPointToContinuousIndex p) ∈ forbiddenLabels
      · rw [pointLoop_cons_forbidden _ _ _ _ _ _ hin hf] at hok
        simp at hok
      · rw [pointLoop_cons_inside _ _ _ _ _ _ hin hf] at hok ⊢
        rw [ih _ hok, touchLoop_eq, touches_cons]
        simp only [hin, true_and]
        by_cases ht : interpolator.evaluateAtContinuousIndex
            (interpolator.transformPhysicalPointToContinuousIndex p) ∈ touchLabels
        · by_cases hs : interpolator.evaluateAtContinuousIndex
              (interpolator.transformPhysicalPointToContinuousIndex p) ∈ seenLabels
          · simp only [ht, hs, if_true]
            constructor
            · rintro (h | ⟨h1, h2⟩)
              · exact Or.inl h
              · exact Or.inr ⟨h1, Or.inr h2⟩
            · rintro (h | ⟨h1, h2 | h2⟩)
              · exact Or.inl h
              · exact Or.inl (h2 ▸ hs)
              · exact Or.inr ⟨h1, h2⟩
          · simp only [ht, hs, if_true, if_false, List.mem_append, List.mem_singleton]
            constructor
            · rintro ((h | h) | ⟨h1, h2⟩)
              · exact Or.inl h
              · exact Or.inr ⟨h ▸ ht, Or.inl h.symm⟩
              · exact Or.inr ⟨h1, Or.inr h2⟩
            · rintro (h | ⟨h1, h2 | h2⟩)
              · exact Or.inl (Or.inl h)
              · exact Or.inl (Or.inr h2.symm)
              · exact Or.inr ⟨h1, h2⟩
        · simp only [ht, if_false]
          constructor
          · rintro (h | ⟨h1, h2⟩)
            · exact Or.inl h
            · exact Or.inr ⟨h1, Or.inr h2⟩
          · rintro (h | ⟨h1, h2 | h2⟩)
            · exact Or.inl h
            · exact absurd (h2 ▸ h1) ht
            · exact Or.inr ⟨h1, h2⟩

theorem touchLoop_nodup (value : Nat) (touchLabels seenLabels : List Nat)
    (h : seenLabels.Nodup) : (touchLoop value touchLabels seenLabels).Nodup := by
  rw [touchLoop_eq]
  split
  · split
    · exact h
    · rename_i hs
      exact List.Nodup.append h (List.nodup_singleton _) (by simpa using hs)
  · exact h

/-- The list `seenLabels` never holds a label twice. -/
theorem pointLoop_nodup {P C : Type} (interpolator : Interpolator P C)
    (touchLabels forbiddenLabels : List Nat) (ps : List P) (seenLabels : List Nat)
    (h : seenLabels.Nodup) :
    (pointLoop interpolator touchLabels forbiddenLabels ps (seenLabels, true)).1.Nodup := by
  induction ps generalizing seenLabels with
  | nil => simpa [pointLoop_nil] using h
  | cons p ps ih =>
    cases hin : interpolator.isInsideBuffer
        (interpolator.transformPhysicalPointToContinuousIndex p) with
    | false =>
      rw [pointLoop_cons_outside _ _ _ _ _ _ _ hin]
      exact ih _ h
    | true =>
      by_cases hf : interpolator.evaluateAtContinuousIndex
          (interpolator.transformPhysicalPointToContinuousIndex p) ∈ forbiddenLabels
      · rw [pointLoop_cons_forbidden _ _ _ _ _ _ hin hf]
        exact h
      · rw [pointLoop_cons_inside _ _ _ _ _ _ hin hf]
        exact ih _ (touchLoop_nodup _ _ _ h)

/-! ### The loop over the cells -/

theorem cellLoop_eq_map {P C : Type} (interpolator : Interpolator P C)
    (touchLabels forbiddenLabels : List Nat) (cells : List (List P)) (seenLabels : List Nat) :
    cellLoop interpolator touchLabels forbiddenLabels cells seenLabels =
      cells.map (fun c => (c, !cellKept interpolator touchLabels forbiddenLabels c)) := by
  induction cells generalizing seenLabels with
  | nil => simp [cellLoop]
  | cons c cs ih => simp [cellLoop, cellKept, ih]

/-- The deletion loop selects the cells that pass the test of line 82 on their own. -/
theorem deletionLoop_eq_filter {P C : Type} (interpolator : Interpolator P C)
    (touchLabels forbiddenLabels : List Nat) (tracks : List (List P)) :
    deletionLoop interpolator touchLabels forbiddenLabels tracks =
      tracks.filter (cellKept interpolator touchLabels forbiddenLabels) := by
  unfold deletionLoop removeDeletedCells
  rw [cellLoop_eq_map]
  induction tracks with
  | nil => simp
  | cons c cs ih =>
    cases h : cellKept interpolator touchLabels forbiddenLabels c <;>
      simp [List.filter_cons, h, ih]

theorem cellKept_iff {P C : Type} (interpolator : Interpolator P C)
    (touchLabels forbiddenLabels : List Nat) (cell : List P) :
    cellKept interpolator touchLabels forbiddenLabels cell = true ↔
      (pointLoop interpolator touchLabels forbiddenLabels cell ([], true)).2 = true ∧
      (pointLoop interpolator touchLabels forbiddenLabels cell ([], true)).1.length
        = touchLabels.length := by
  simp [cellKept]

/-- A cell that passes the test of line 82 is a valid fibre. -/
theorem cellKept_valid {P C : Type} (interpolator : Interpolator P C)
    (touchLabels forbiddenLabels : List Nat) (cell : List P)
    (h : cellKept interpolator touchLabels forbiddenLabels cell = true) :
    ValidFiber interpolator touchLabels forbiddenLabels cell := by
  obtain ⟨hok, hlen⟩ := (cellKept_iff _ _ _ _).1 h
  refine ⟨(pointLoop_lineOk _ _ _ _ _).1 hok, ?_⟩
  have hnd := pointLoop_nodup interpolator touchLabels forbiddenLabels cell [] List.nodup_nil
  have hsub : (pointLoop interpolator touchLabels forbiddenLabels cell ([], true)).1
      ⊆ touchLabels := by
    intro v hv
    rcases (pointLoop_seen _ _ _ _ _ hok v).1 hv with h0 | ⟨h1, _⟩
    · simp at h0
    · exact h1
  have hperm := (hnd.subperm hsub).perm_of_length_le (le_of_eq hlen.symm)
  intro l hl
  have hl2 := hperm.mem_iff.2 hl
  rcases (pointLoop_seen _ _ _ _ _ hok l).1 hl2 with h0 | ⟨_, h1⟩
  · simp at h0
  · exact h1

/-- With no label given twice in the touch list, a valid fibre passes the test
of line 82. -/
theorem valid_cellKept {P C : Type} (interpolator : Interpolator P C)
    (touchLabels forbiddenLabels : List Nat) (cell : List P)
    (hnodup : touchLabels.Nodup)
    (h : ValidFiber interpolator touchLabels forbiddenLabels cell) :
    cellKept interpolator touchLabels forbiddenLabels cell = true := by
  have hok := (pointLoop_lineOk interpolator touchLabels forbiddenLabels cell []).2 h.1
  refine (cellKept_iff _ _ _ _).2 ⟨hok, ?_⟩
  have hnd := pointLoop_nodup interpolator touchLabels forbiddenLabels cell [] List.nodup_nil
  have hsub : touchLabels ⊆
      (pointLoop interpolator touchLabels forbiddenLabels cell ([], true)).1 := by
    intro v hv
    exact (pointLoop_seen _ _ _ _ _ hok v).2 (Or.inr ⟨hv, h.2 v hv⟩)
  have hsub2 : (pointLoop interpolator touchLabels forbiddenLabels cell ([], true)).1
      ⊆ touchLabels := by
    intro v hv
    rcases (pointLoop_seen _ _ _ _ _ hok v).1 hv with h0 | ⟨h1, _⟩
    · simp at h0
    · exact h1
  exact le_antisymm (hnd.subperm hsub2).length_le (hnodup.subperm hsub).length_le

theorem touches_congr {P C : Type} (interpolator : Interpolator P C) (f g : List P)
    (hfg : ∀ p, p ∈ f ↔ p ∈ g) (l : Nat) :
    Touches interpolator f l ↔ Touches interpolator g l := by
  constructor
  · rintro ⟨p, hp, h⟩
    exact ⟨p, (hfg p).1 hp, h⟩
  · rintro ⟨p, hp, h⟩
    exact ⟨p, (hfg p).2 hp, h⟩

theorem validFiber_congr {P C : Type} (interpolator : Interpolator P C)
    (touchLabels forbiddenLabels : List Nat) (f g : List P) (hfg : ∀ p, p ∈ f ↔ p ∈ g)
    (h : ValidFiber interpolator touchLabels forbiddenLabels g) :
    ValidFiber interpolator touchLabels forbiddenLabels f :=
  ⟨fun l hl ht => h.1 l hl ((touches_congr interpolator f g hfg l).1 ht),
   fun l hl => (touches_congr interpolator f g hfg l).2 (h.2 l hl)⟩

theorem cleanerKeepsPoints_id {P : Type} : CleanerKeepsPoints (fun cells : List (List P) => cells) :=
  fun _ f hf => ⟨f, hf, fun _ => Iff.rfl⟩

/-! ### Claims on `filterTracks` -/

/-- C3: every fibre left by `filterTracks` is valid: it has no point inside the
label image buffer whose label is forbidden, and for every touch label it has
a point inside the buffer carrying that label.  The cleaning pass is assumed
to hand back cells of its input, point for point. -/
theorem filterTracks_keeps_only_valid {P C : Type}
    (vtkCleaner : List (List P) → List (List P)) (hclean : CleanerKeepsPoints vtkCleaner)
    (tracks : List (List P)) (interpolator : Interpolator P C)
    (touchLabels forbiddenLabels : List Nat) :
    ∀ f ∈ filterTracks vtkCleaner tracks interpolator touchLabels forbiddenLabels,
      (∀ p ∈ f,
        interpolator.isInsideBuffer
          (interpolator.transformPhysicalPointToContinuousIndex p) = true →
        interpolator.evaluateAtContinuousIndex
          (interpolator.transformPhysicalPointToContinuousIndex p) ∉ forbiddenLabels) ∧
      (∀ l ∈ touchLabels, ∃ p ∈ f,
        interpolator.isInsideBuffer
          (interpolator.transformPhysicalPointToContinuousIndex p) = true ∧
        interpolator.evaluateAtContinuousIndex
          (interpolator.transformPhysicalPointToContinuousIndex p) = l) := by
  intro f hf
  obtain ⟨g, hg, hfg⟩ := hclean _ f hf
  rw [deletionLoop_eq_filter] at hg
  have hkept := (List.mem_filter.1 hg).2
  have hvalid := validFiber_congr interpolator touchLabels forbiddenLabels f g hfg
    (cellKept_valid interpolator touchLabels forbiddenLabels g hkept)
  refine ⟨?_, hvalid.2⟩
  intro p hp hin hforb
  exact hvalid.1 _ hforb ⟨p, hp, hin, rfl⟩

/-- C3, on an example: of four fibres the one through a voxel labelled 3 is
removed and the three left touch label 1. -/
theorem filterTracks_keeps_only_valid_witness :
    CleanerKeepsPoints (fun cells : List (List Nat) => cells) ∧
    filterTracks (fun cells => cells) [[1, 2], [3, 1], [12, 1], [6]] sampleInterpolator [1] [3]
      = [[1, 2], [12, 1]] ∧
    ∀ f ∈ filterTracks (fun cells => cells) [[1, 2], [3, 1], [12, 1], [6]]
        sampleInterpolator [1] [3],
      (∀ p ∈ f,
        sampleInterpolator.isInsideBuffer
          (sampleInterpolator.transformPhysicalPointToContinuousIndex p) = true →
        sampleInterpolator.evaluateAtContinuousIndex
          (sampleInterpolator.transformPhysicalPointToContinuousIndex p) ∉ [3]) ∧
      (∀ l ∈ [1], ∃ p ∈ f,
        sampleInterpolator.isInsideBuffer
          (sampleInterpolator.transformPhysicalPointToContinuousIndex p) = true ∧
        sampleInterpolator.evaluateAtContinuousIndex
          (sampleInterpolator.transformPhysicalPointToContinuousIndex p) = l) :=
  ⟨cleanerKeepsPoints_id, by decide,
    filterTracks_keeps_only_valid (fun cells => cells) cleanerKeepsPoints_id
      [[1, 2], [3, 1], [12, 1], [6]] sampleInterpolator [1] [3]⟩

/-- C4, at the touch list `[1, 1]` (the option `-t 1` given twice): the fibre
with one point, inside the buffer on a voxel labelled 1, touches every label of
the touch list and meets no forbidden label, and `filterTracks` removes it. -/
theorem filterTracks_drops_valid_fiber_on_repeated_label :
    ValidFiber sampleInterpolator [1, 1] [] [1] ∧
    [1] ∈ [[1]] ∧
    filterTracks (fun cells => cells) [[1]] sampleInterpolator [1, 1] [] = [] := by
  exact ⟨by decide, by decide, by decide⟩

/-- With no label repeated in the touch list (and a cleaning pass that hands
back every cell unchanged), every valid input fibre is in the output. -/
theorem filterTracks_keeps_valid_of_nodup {P C : Type}
    (tracks : List (List P)) (interpolator : Interpolator P C)
    (touchLabels forbiddenLabels : List Nat) (hnodup : touchLabels.Nodup)
    (f : List P) (hf : f ∈ tracks)
    (hvalid : ValidFiber interpolator touchLabels forbiddenLabels f) :
    f ∈ filterTracks (fun cells => cells) tracks interpolator touchLabels forbiddenLabels := by
  unfold filterTracks
  rw [deletionLoop_eq_filter]
  exact List.mem_filter.2 ⟨hf, valid_cellKept interpolator touchLabels forbiddenLabels f
    hnodup hvalid⟩

/-- C10: the fibres left by the deletion loop are a sub-sequence of the input
in its order; the fate of a fibre does not depend on the fibres around it (the
loop on a concatenation is the concatenation of the loops); and the loop run
again on its result removes nothing. -/
theorem deletionLoop_selection_idempotent {P C : Type} (interpolator : Interpolator P C)
    (touchLabels forbiddenLabels : List Nat) (tracks : List (List P)) :
    List.Sublist (deletionLoop interpolator touchLabels forbiddenLabels tracks) tracks ∧
    (∀ before after : List (List P),
      deletionLoop interpolator touchLabels forbiddenLabels (before ++ after) =
        deletionLoop interpolator touchLabels forbiddenLabels before ++
          deletionLoop interpolator touchLabels forbiddenLabels after) ∧
    deletionLoop interpolator touchLabels forbiddenLabels
        (deletionLoop interpolator touchLabels forbiddenLabels tracks) =
      deletionLoop interpolator touchLabels forbiddenLabels tracks := by
  refine ⟨?_, ?_, ?_⟩
  · rw [deletionLoop_eq_filter]
    exact List.filter_sublist tracks
  · intro before after
    simp [deletionLoop_eq_filter]
  · simp [deletionLoop_eq_filter]

end FibersFilterer

namespace TensorApplyTransformSerie

/-! ### The output geometry loop -/

theorem range_dimension : List.range Dimension = [0, 1, 2] := by decide

/-- After the loop of lines 120-129 every component along the three axes holds
what the image IO object reports, whatever the locals held before. -/
theorem outputGeometry_spec {S : Type} (info : ImageInformation S)
    (uninitialised : OutputGeometry S) (i : Nat) (hi : i < Dimension) :
    (outputGeometry info uninitialised).origin i = info.getOrigin i ∧
    (outputGeometry info uninitialised).spacing i = info.getSpacing i ∧
    (outputGeometry info uninitialised).regionSize i = info.getDimensions i ∧
    (outputGeometry info uninitialised).regionIndex i = 0 ∧
    ∀ j, j < Dimension →
      (outputGeometry info uninitialised).directionMatrix i j = info.getDirection j i := by
  have hi3 : i < 3 := hi
  simp only [outputGeometry, range_dimension, geometryLoop, directionLoop]
  interval_cases i
  · refine ⟨by simp, by simp, by simp, by simp, ?_⟩
    intro j hj
    have hj3 : j < 3 := hj
    interval_cases j <;> simp
  · refine ⟨by simp, by simp, by simp, by simp, ?_⟩
    intro j hj
    have hj3 : j < 3 := hj
    interval_cases j <;> simp
  · refine ⟨by simp, by simp, by simp, by simp, ?_⟩
    intro j hj
    have hj3 : j < 3 := hj
    interval_cases j <;> simp

/-! ### Reading a run of `main` backwards -/

/-- A call of `trReader->Update()` in the trace: the four stages before it
succeeded and the reader carries the settings of lines 82-85. -/
theorem main_trReader_inv {Img Trsf S : Type} (env : Env Img Trsf S) (av : List String)
    (cfg : TransformSeriesReaderConfig)
    (h : Event.trReaderUpdate cfg ∈ (main env av).events) :
    ∃ cmd readerOutput imageIo info,
      env.cmdParse av = .ok cmd ∧
      env.readerUpdate cmd.inArg = .ok readerOutput ∧
      env.createImageIo cmd.geomArg = some imageIo ∧
      imageIo.readImageInformation cmd.geomArg = .ok info ∧
      cfg = { input := cmd.trArg
              invertTransform := cmd.invertArg
              exponentiationOrder := cmd.expOrderValue
              numberOfWorkUnits := cmd.nbpValue env.globalDefaultNumberOfThreads } := by
  cases hcmd : env.cmdParse av with
  | error e => cases e <;> simp [main, hcmd] at h
  | ok cmd =>
    cases hro : env.readerUpdate cmd.inArg with
    | error e => simp [main, hcmd, hro] at h
    | ok ro =>
      cases hio : env.createImageIo cmd.geomArg with
      | none => simp [main, hcmd, hro, hio] at h
      | some io =>
        cases hinfo : io.readImageInformation cmd.geomArg with
        | error e => simp [main, hcmd, hro, hio, hinfo] at h
        | ok info =>
          refine ⟨cmd, ro, io, info, rfl, hro, hio, hinfo, ?_⟩
          simp only [main, hcmd, hro, hio, hinfo] at h
          split at h
          · simpa using h
          · simpa using h
          · split at h
            · simpa using h
            · split at h
              · simpa using h
              · split at h
                · simpa using h
                · split at h
                  · simpa using h
                  · simpa using h

/-- A resample filter with settings at the end of `main`: the five stages
before line 108 succeeded and the settings are those of lines 110-134. -/
theorem main_resampler_inv {Img Trsf S : Type} (env : Env Img Trsf S) (av : List String)
    (cfg : ResampleConfig Trsf S)
    (h : (main env av).resampler = some cfg) :
    ∃ cmd readerOutput imageIo info trsf,
      env.cmdParse av = .ok cmd ∧
      env.readerUpdate cmd.inArg = .ok readerOutput ∧
      env.createImageIo cmd.geomArg = some imageIo ∧
      imageIo.readImageInformation cmd.geomArg = .ok info ∧
      env.trReaderUpdate
        { input := cmd.trArg
          invertTransform := cmd.invertArg
          exponentiationOrder := cmd.expOrderValue
          numberOfWorkUnits := cmd.nbpValue env.globalDefaultNumberOfThreads } = .ok trsf ∧
      cfg = { transform := trsf
              finiteStrainReorientation := !cmd.ppdArg
              interpolator :=
                if cmd.nearestArg then InterpolatorKind.nearestNeighbor
                else InterpolatorKind.vectorModelLinear
              numberOfWorkUnits := cmd.nbpValue env.globalDefaultNumberOfThreads
              output := outputGeometry info env.uninitialised } := by
  cases hcmd : env.cmdParse av with
  | error e => cases e <;> simp [main, hcmd] at h
  | ok cmd =>
    cases hro : env.readerUpdate cmd.inArg with
    | error e => simp [main, hcmd, hro] at h
    | ok ro =>
      cases hio : env.createImageIo cmd.geomArg with
      | none => simp [main, hcmd, hro, hio] at h
      | some io =>
        cases hinfo : io.readImageInformation cmd.geomArg with
        | error e => simp [main, hcmd, hro, hio, hinfo] at h
        | ok info =>
          simp only [main, hcmd, hro, hio, hinfo] at h
          split at h
          · simp at h
          · simp at h
          · rename_i trsf htr
            refine ⟨cmd, ro, io, info, trsf, rfl, hro, hio, hinfo, htr, ?_⟩
            split at h
            · simpa using h.symm
            · split at h
              · simpa using h.symm
              · split at h
                · simpa using h.symm
                · split at h
                  · simpa using h.symm
                  · simpa using h.symm

/-! ### Exit codes -/

/-- When `reader->Update()` of line 66 throws, nothing catches the exception:
it leaves `main`, which has written nothing on `std::cerr` and returns no code. -/
theorem main_reader_throws {Img Trsf S : Type} (env : Env Img Trsf S) (av : List String)
    (cmd : CmdLine) (e : Exception)
    (hcmd : env.cmdParse av = .ok cmd) (hro : env.readerUpdate cmd.inArg = .error e) :
    (main env av).outcome = .uncaught e ∧ (main env av).cerr = [] := by
  simp [main, hcmd, hro]

/-- When no image IO factory is found for the geometry reference, `main` writes
a line on `std::cerr` and returns `EXIT_FAILURE`. -/
theorem main_geometry_missing {Img Trsf S : Type} (env : Env Img Trsf S) (av : List String)
    (cmd : CmdLine) (readerOutput : Img)
    (hcmd : env.cmdParse av = .ok cmd) (hro : env.readerUpdate cmd.inArg = .ok readerOutput)
    (hio : env.createImageIo cmd.geomArg = none) :
    (main env av).outcome = .returned EXIT_FAILURE ∧
    (main env av).cerr = ["Itk could not find suitable IO factory for the input"] := by
  simp [main, hcmd, hro, hio]

/-- When every stage succeeds, `main` returns `EXIT_SUCCESS` and writes nothing
on `std::cerr`. -/
theorem main_all_stages_succeed {Img Trsf S : Type} (env : Env Img Trsf S) (av : List String)
    (cmd : CmdLine) (readerOutput logOutput resampleOutput expOutput : Img)
    (imageIo : ImageIOBase S) (info : ImageInformation S) (trsf : Trsf)
    (hcmd : env.cmdParse av = .ok cmd) (hro : env.readerUpdate cmd.inArg = .ok readerOutput)
    (hio : env.createImageIo cmd.geomArg = some imageIo)
    (hinfo : imageIo.readImageInformation cmd.geomArg = .ok info)
    (htr : ∀ cfg, env.trReaderUpdate cfg = .ok trsf)
    (hlog : ∀ cfg, env.tensorLoggerUpdate cfg readerOutput = .ok logOutput)
    (hres : ∀ cfg, env.resampleUpdate cfg logOutput = .ok resampleOutput)
    (hexp : ∀ cfg, env.tensorExperUpdate cfg resampleOutput = .ok expOutput)
    (hwr : ∀ cfg, env.writerUpdate cfg expOutput = .ok ()) :
    (main env av).outcome = .returned EXIT_SUCCESS ∧ (main env av).cerr = [] := by
  simp [main, hcmd, hro, hio, hinfo, htr, hlog, hres, hexp, hwr]

/-- C1, at an invocation whose tensor image cannot be read: the exception of
`reader->Update()` leaves `main`; `main` returns no exit code and has written
nothing on the error stream. -/
theorem main_unreadable_input_uncaught :
    (main (sampleEnv sampleCmd false true true) []).outcome =
      .uncaught (.exceptionObject "could not read the input") ∧
    (main (sampleEnv sampleCmd false true true) []).cerr = [] ∧
    ∀ code, (main (sampleEnv sampleCmd false true true) []).outcome ≠ .returned code := by
  have h := main_reader_throws (sampleEnv sampleCmd false true true) [] sampleCmd
    (.exceptionObject "could not read the input") rfl rfl
  refine ⟨h.1, h.2, ?_⟩
  intro code hc
  rw [h.1] at hc
  cases hc

/-- C5: in a run that returns `EXIT_SUCCESS` the calls are, in order, the image
reader, the geometry reader, the transform series reader, the Log filter on
the image read, the resample filter (with the transform read, the chosen
interpolator and the output geometry) on the output of the Log filter, the
Exp filter on the output of the resampler, and one writer call on the output
of the Exp filter: the image written is Exp(Resample(Log(input))). -/
theorem main_success_data_flow {Img Trsf S : Type} (env : Env Img Trsf S) (av : List String)
    (hok : (main env av).outcome = .returned EXIT_SUCCESS) :
    ∃ cmd imageIo info trsf input logged resampled exped,
      env.cmdParse av = .ok cmd ∧
      env.readerUpdate cmd.inArg = .ok input ∧
      env.createImageIo cmd.geomArg = some imageIo ∧
      imageIo.readImageInformation cmd.geomArg = .ok info ∧
      env.trReaderUpdate ⟨cmd.trArg, cmd.invertArg, cmd.expOrderValue,
        cmd.nbpValue env.globalDefaultNumberOfThreads⟩ = .ok trsf ∧
      env.tensorLoggerUpdate ⟨true, cmd.nbpValue env.globalDefaultNumberOfThreads⟩ input
        = .ok logged ∧
      env.resampleUpdate
        { transform := trsf
          finiteStrainReorientation := !cmd.ppdArg
          interpolator :=
            if cmd.nearestArg then InterpolatorKind.nearestNeighbor
            else InterpolatorKind.vectorModelLinear
          numberOfWorkUnits := cmd.nbpValue env.globalDefaultNumberOfThreads
          output := outputGeometry info env.uninitialised } logged = .ok resampled ∧
      env.tensorExperUpdate ⟨true, cmd.nbpValue env.globalDefaultNumberOfThreads⟩ resampled
        = .ok exped ∧
      (main env av).events =
        [ Event.readerUpdate cmd.inArg,
          Event.readImageInformation cmd.geomArg,
          Event.trReaderUpdate ⟨cmd.trArg, cmd.invertArg, cmd.expOrderValue,
            cmd.nbpValue env.globalDefaultNumberOfThreads⟩,
          Event.tensorLoggerUpdate ⟨true, cmd.nbpValue env.globalDefaultNumberOfThreads⟩ input,
          Event.resampleUpdate
            { transform := trsf
              finiteStrainReorientation := !cmd.ppdArg
              interpolator :=
                if cmd.nearestArg then InterpolatorKind.nearestNeighbor
                else InterpolatorKind.vectorModelLinear
              numberOfWorkUnits := cmd.nbpValue env.globalDefaultNumberOfThreads
              output := outputGeometry info env.uninitialised } logged,
          Event.tensorExperUpdate ⟨true, cmd.nbpValue env.globalDefaultNumberOfThreads⟩
            resampled,
          Event.writerUpdate ⟨true, cmd.outArg⟩ exped ] := by
  cases hcmd : env.cmdParse av with
  | error e => cases e <;> simp [main, hcmd, EXIT_FAILURE, EXIT_SUCCESS] at hok
  | ok cmd =>
    cases hro : env.readerUpdate cmd.inArg with
    | error e => simp [main, hcmd, hro] at hok
    | ok ro =>
      cases hio : env.createImageIo cmd.geomArg with
      | none => simp [main, hcmd, hro, hio, EXIT_FAILURE, EXIT_SUCCESS] at hok
      | some io =>
        cases hinfo : io.readImageInformation cmd.geomArg with
        | error e => simp [main, hcmd, hro, hio, hinfo] at hok
        | ok info =>
          cases htr : env.trReaderUpdate ⟨cmd.trArg, cmd.invertArg, cmd.expOrderValue,
              cmd.nbpValue env.globalDefaultNumberOfThreads⟩ with
          | error e =>
            cases e <;> simp [main, hcmd, hro, hio, hinfo, htr, EXIT_FAILURE, EXIT_SUCCESS] at hok
          | ok trsf =>
            cases hlog : env.tensorLoggerUpdate
                ⟨true, cmd.nbpValue env.globalDefaultNumberOfThreads⟩ ro with
            | error e => simp [main, hcmd, hro, hio, hinfo, htr, hlog] at hok
            | ok logged =>
              cases hres : env.resampleUpdate
                  { transform := trsf
                    finiteStrainReorientation := !cmd.ppdArg
                    interpolator :=
                      if cmd.nearestArg then InterpolatorKind.nearestNeighbor
                      else InterpolatorKind.vectorModelLinear
                    numberOfWorkUnits := cmd.nbpValue env.globalDefaultNumberOfThreads
                    output := outputGeometry info env.uninitialised } logged with
              | error e => simp [main, hcmd, hro, hio, hinfo, htr, hlog, hres] at hok
              | ok resampled =>
                cases hexp : env.tensorExperUpdate
                    ⟨true, cmd.nbpValue env.globalDefaultNumberOfThreads⟩ resampled with
                | error e => simp [main, hcmd, hro, hio, hinfo, htr, hlog, hres, hexp] at hok
                | ok exped =>
                  cases hwr : env.writerUpdate ⟨true, cmd.outArg⟩ exped with
                  | error e =>
                    simp [main, hcmd, hro, hio, hinfo, htr, hlog, hres, hexp, hwr] at hok
                  | ok u =>
                    refine ⟨cmd, io, info, trsf, ro, logged, resampled, exped, rfl, hro, hio,
                      hinfo, htr, hlog, hres, hexp, ?_⟩
                    simp [main, hcmd, hro, hio, hinfo, htr, hlog, hres, hexp, hwr]

/-- C5, on an example: the run succeeds and the writer receives
`((1 + 100) + 20) + 3`, the image read passed through Log, resampling and Exp. -/
theorem main_success_data_flow_witness :
    (main (sampleEnv sampleCmd true true true) []).outcome = .returned EXIT_SUCCESS ∧
    (main (sampleEnv sampleCmd true true true) []).events.getLast? =
      some (Event.writerUpdate ⟨true, "out.nrrd"⟩ 124) ∧
    ∃ cmd imageIo info trsf input logged resampled exped,
      (sampleEnv sampleCmd true true true).cmdParse [] = .ok cmd ∧
      (sampleEnv sampleCmd true true true).readerUpdate cmd.inArg = .ok input ∧
      (sampleEnv sampleCmd true true true).createImageIo cmd.geomArg = some imageIo ∧
      imageIo.readImageInformation cmd.geomArg = .ok info ∧
      (sampleEnv sampleCmd true true true).trReaderUpdate ⟨cmd.trArg, cmd.invertArg,
        cmd.expOrderValue,
        cmd.nbpValue (sampleEnv sampleCmd true true true).globalDefaultNumberOfThreads⟩
        = .ok trsf ∧
      (sampleEnv sampleCmd true true true).tensorLoggerUpdate
        ⟨true, cmd.nbpValue (sampleEnv sampleCmd true true true).globalDefaultNumberOfThreads⟩
        input = .ok logged ∧
      (sampleEnv sampleCmd true true true).resampleUpdate
        { transform := trsf
          finiteStrainReorientation := !cmd.ppdArg
          interpolator :=
            if cmd.nearestArg then InterpolatorKind.nearestNeighbor
            else InterpolatorKind.vectorModelLinear
          numberOfWorkUnits :=
            cmd.nbpValue (sampleEnv sampleCmd true true true).globalDefaultNumberOfThreads
          output := outputGeometry info (sampleEnv sampleCmd true true true).uninitialised }
        logged = .ok resampled ∧
      (sampleEnv sampleCmd true true true).tensorExperUpdate
        ⟨true, cmd.nbpValue (sampleEnv sampleCmd true true true).globalDefaultNumberOfThreads⟩
        resampled = .ok exped ∧
      (main (sampleEnv sampleCmd true true true) []).events =
        [ Event.readerUpdate cmd.inArg,
          Event.readImageInformation cmd.geomArg,
          Event.trReaderUpdate ⟨cmd.trArg, cmd.invertArg, cmd.expOrderValue,
            cmd.nbpValue (sampleEnv sampleCmd true true true).globalDefaultNumberOfThreads⟩,
          Event.tensorLoggerUpdate
            ⟨true,
              cmd.nbpValue (sampleEnv sampleCmd true true true).globalDefaultNumberOfThreads⟩
            input,
          Event.resampleUpdate
            { transform := trsf
              finiteStrainReorientation := !cmd.ppdArg
              interpolator :=
                if cmd.nearestArg then InterpolatorKind.nearestNeighbor
                else InterpolatorKind.vectorModelLinear
              numberOfWorkUnits :=
                cmd.nbpValue (sampleEnv sampleCmd true true true).globalDefaultNumberOfThreads
              output :=
                outputGeometry info (sampleEnv sampleCmd true true true).uninitialised }
            logged,
          Event.tensorExperUpdate
            ⟨true,
              cmd.nbpValue (sampleEnv sampleCmd true true true).globalDefaultNumberOfThreads⟩
            resampled,
          Event.writerUpdate ⟨true, cmd.outArg⟩ exped ] :=
  ⟨rfl, rfl, main_success_data_flow (sampleEnv sampleCmd true true true) [] rfl⟩

/-! ### Settings of the resampler and of the transform series reader -/

/-- C6: the output origin, spacing and size of the resample filter along each
of the 3 axes are those the image IO object of the geometry image reports,
the output region starts at index 0, and entry `(i, j)` of the output
direction matrix is component `i` of the `j`-th axis direction of the
geometry image; a run that differs only in what the tensor image reader gives has
the same values. -/
theorem main_output_geometry {Img Trsf S : Type} (env : Env Img Trsf S) (av : List String)
    (cfg : ResampleConfig Trsf S) (h : (main env av).resampler = some cfg) :
    ∃ cmd imageIo info,
      env.cmdParse av = .ok cmd ∧
      env.createImageIo cmd.geomArg = some imageIo ∧
      imageIo.readImageInformation cmd.geomArg = .ok info ∧
      (∀ i, i < Dimension →
        cfg.output.origin i = info.getOrigin i ∧
        cfg.output.spacing i = info.getSpacing i ∧
        cfg.output.regionSize i = info.getDimensions i ∧
        cfg.output.regionIndex i = 0 ∧
        ∀ j, j < Dimension → cfg.output.directionMatrix i j = info.getDirection j i) ∧
      (∀ (readerUpdate2 : String → Except Exception Img) (cfg2 : ResampleConfig Trsf S),
        (main { env with readerUpdate := readerUpdate2 } av).resampler = some cfg2 →
        ∀ i, i < Dimension →
          cfg2.output.origin i = cfg.output.origin i ∧
          cfg2.output.spacing i = cfg.output.spacing i ∧
          cfg2.output.regionSize i = cfg.output.regionSize i ∧
          cfg2.output.regionIndex i = cfg.output.regionIndex i ∧
          ∀ j, j < Dimension →
            cfg2.output.directionMatrix i j = cfg.output.directionMatrix i j) := by
  obtain ⟨cmd, ro, io, info, trsf, hcmd, hro, hio, hinfo, htr, hcfg⟩ :=
    main_resampler_inv env av cfg h
  refine ⟨cmd, io, info, hcmd, hio, hinfo, ?_, ?_⟩
  · intro i hi
    rw [hcfg]
    exact outputGeometry_spec info env.uninitialised i hi
  · intro readerUpdate2 cfg2 h2 i hi
    obtain ⟨cmd2, ro2, io2, info2, trsf2, hcmd2, hro2, hio2, hinfo2, htr2, hcfg2⟩ :=
      main_resampler_inv { env with readerUpdate := readerUpdate2 } av cfg2 h2
    have e1 : cmd2 = cmd := by
      have : Except.ok cmd2 = (Except.ok cmd : Except Exception CmdLine) := by
        rw [← hcmd, ← hcmd2]
      exact (Except.ok.inj this)
    subst e1
    have e2 : io2 = io := by
      have : some io2 = some io := by rw [← hio, ← hio2]
      exact Option.some.inj this
    subst e2
    have e3 : info2 = info := by
      have : Except.ok info2 = (Except.ok info : Except Exception (ImageInformation S)) := by
        rw [← hinfo, ← hinfo2]
      exact (Except.ok.inj this)
    subst e3
    have a := outputGeometry_spec info2 env.uninitialised i hi
    rw [hcfg, hcfg2]
    refine ⟨?_, ?_, ?_, ?_, ?_⟩
    · exact a.1.trans a.1.symm
    · exact a.2.1.trans a.2.1.symm
    · exact a.2.2.1.trans a.2.2.1.symm
    · exact a.2.2.2.1.trans a.2.2.2.1.symm
    · intro j hj
      exact (a.2.2.2.2 j hj).trans (a.2.2.2.2 j hj).symm


/-- C6, on an example: the resampler of the successful example run has the
origin, spacing, size and direction of the example geometry reference. -/
theorem main_output_geometry_witness :
    (main (sampleEnv sampleCmd true true true) []).resampler = some sampleResampleConfig ∧
    (sampleResampleConfig.output.origin 0 = 10 ∧
      sampleResampleConfig.output.regionSize 2 = 66 ∧
      sampleResampleConfig.output.directionMatrix 1 2 = 21) ∧
    ∃ cmd imageIo info,
      (sampleEnv sampleCmd true true true).cmdParse [] = .ok cmd ∧
      (sampleEnv sampleCmd true true true).createImageIo cmd.geomArg = some imageIo ∧
      imageIo.readImageInformation cmd.geomArg = .ok info ∧
      (∀ i, i < Dimension →
        sampleResampleConfig.output.origin i = info.getOrigin i ∧
        sampleResampleConfig.output.spacing i = info.getSpacing i ∧
        sampleResampleConfig.output.regionSize i = info.getDimensions i ∧
        sampleResampleConfig.output.regionIndex i = 0 ∧
        ∀ j, j < Dimension →
          sampleResampleConfig.output.directionMatrix i j = info.getDirection j i) ∧
      (∀ (readerUpdate2 : String → Except Exception Nat) (cfg2 : ResampleConfig Nat Int),
        (main { sampleEnv sampleCmd true true true with readerUpdate := readerUpdate2 }
          []).resampler = some cfg2 →
        ∀ i, i < Dimension →
          cfg2.output.origin i = sampleResampleConfig.output.origin i ∧
          cfg2.output.spacing i = sampleResampleConfig.output.spacing i ∧
          cfg2.output.regionSize i = sampleResampleConfig.output.regionSize i ∧
          cfg2.output.regionIndex i = sampleResampleConfig.output.regionIndex i ∧
          ∀ j, j < Dimension →
            cfg2.output.directionMatrix i j = sampleResampleConfig.output.directionMatrix i j) :=
  ⟨rfl, ⟨by decide, by decide, by decide⟩,
    main_output_geometry (sampleEnv sampleCmd true true true) [] sampleResampleConfig rfl⟩

/-- C7 as stated fails with `-e 5`: the transform series reader is handed the
order 5, which is neither 0 nor 1, and the run goes on to return `EXIT_SUCCESS`. -/
theorem main_forwards_exp_order_five :
    Event.trReaderUpdate ⟨"trsf.xml", false, 5, 8⟩ ∈
      (main (sampleEnv sampleCmdOrder5 true true true) []).events ∧
    ¬ ((⟨"trsf.xml", false, 5, 8⟩ : TransformSeriesReaderConfig).exponentiationOrder = 0 ∨
       (⟨"trsf.xml", false, 5, 8⟩ : TransformSeriesReaderConfig).exponentiationOrder = 1) ∧
    (main (sampleEnv sampleCmdOrder5 true true true) []).outcome = .returned EXIT_SUCCESS :=
  ⟨List.mem_cons_of_mem _ (List.mem_cons_of_mem _ (List.mem_cons_self _ _)), by decide, rfl⟩

/-- C7 as amended: the order handed to the transform series reader is 0 when
`-e` is absent and is the value given with `-e` otherwise, whatever that value. -/
theorem main_exp_order_forwarded {Img Trsf S : Type} (env : Env Img Trsf S) (av : List String)
    (cfg : TransformSeriesReaderConfig)
    (h : Event.trReaderUpdate cfg ∈ (main env av).events) :
    ∃ cmd, env.cmdParse av = .ok cmd ∧
      (cmd.expOrderArg = none → cfg.exponentiationOrder = 0) ∧
      (∀ n, cmd.expOrderArg = some n → cfg.exponentiationOrder = n) := by
  obtain ⟨cmd, ro, io, info, hcmd, _, _, _, hcfg⟩ := main_trReader_inv env av cfg h
  refine ⟨cmd, hcmd, ?_, ?_⟩
  · intro hn
    simp [hcfg, CmdLine.expOrderValue, hn]
  · intro n hn
    simp [hcfg, CmdLine.expOrderValue, hn]

/-- C7 as amended, on an example: without `-e` the reader is handed the order 0. -/
theorem main_exp_order_forwarded_witness :
    Event.trReaderUpdate ⟨"trsf.xml", false, 0, 8⟩ ∈
      (main (sampleEnv sampleCmd true true true) []).events ∧
    ∃ cmd, (sampleEnv sampleCmd true true true).cmdParse [] = .ok cmd ∧
      (cmd.expOrderArg = none →
        (⟨"trsf.xml", false, 0, 8⟩ : TransformSeriesReaderConfig).exponentiationOrder = 0) ∧
      (∀ n, cmd.expOrderArg = some n →
        (⟨"trsf.xml", false, 0, 8⟩ : TransformSeriesReaderConfig).exponentiationOrder = n) :=
  have hcall : Event.trReaderUpdate ⟨"trsf.xml", false, 0, 8⟩ ∈
      (main (sampleEnv sampleCmd true true true) []).events :=
    List.mem_cons_of_mem _ (List.mem_cons_of_mem _ (List.mem_cons_self _ _))
  ⟨hcall, main_exp_order_forwarded (sampleEnv sampleCmd true true true) []
    ⟨"trsf.xml", false, 0, 8⟩ hcall⟩

/-- C9: the resample filter is set to finite-strain reorientation exactly when
the switch `-P` is not given. -/
theorem main_reorientation_mode {Img Trsf S : Type} (env : Env Img Trsf S) (av : List String)
    (cfg : ResampleConfig Trsf S) (h : (main env av).resampler = some cfg) :
    ∃ cmd, env.cmdParse av = .ok cmd ∧
      (cfg.finiteStrainReorientation = true ↔ cmd.ppdArg = false) := by
  obtain ⟨cmd, ro, io, info, trsf, hcmd, _, _, _, _, hcfg⟩ := main_resampler_inv env av cfg h
  refine ⟨cmd, hcmd, ?_⟩
  rw [hcfg]
  cases cmd.ppdArg <;> simp

/-- C9, on an example: with `-P` the resample filter is not set to finite strain. -/
theorem main_reorientation_mode_witness :
    (main (sampleEnv sampleCmdPpd true true true) []).resampler =
      some { sampleResampleConfig with finiteStrainReorientation := false } ∧
    ∃ cmd, (sampleEnv sampleCmdPpd true true true).cmdParse [] = .ok cmd ∧
      (({ sampleResampleConfig with finiteStrainReorientation := false } :
          ResampleConfig Nat Int).finiteStrainReorientation = true ↔ cmd.ppdArg = false) :=
  ⟨rfl, main_reorientation_mode (sampleEnv sampleCmdPpd true true true) []
    { sampleResampleConfig with finiteStrainReorientation := false } rfl⟩

end TensorApplyTransformSerie
